import Mathlib

set_option linter.unusedVariables false

/-!
Shallow embedding of the spiderlightning keyvalue capability layer
(crates/keyvalue/src/lib.rs) and the wasmedge runtime builder
(crates/common/src/wasmedge_runtime/builder.rs).

The `lib.rs` file contains two skeletons:
 * the fully wired, `wasmtime`-gated implementation (`Keyvalue`,
   `KeyvalueInner`, `KeyvalueImplementors`, the `keyvalue::Keyvalue`
   trait impl), which delegates data operations to the `implementors`
   module (not part of the provided sources), and
 * a disconnected wasmedge stub with print-based bodies
   (free functions `keyvalue_open` .. `keyvalue_delete`).
Both are embedded here; the stub lives in namespace `WasmedgeStub`.

Rust `panic!` is modelled explicitly as the `Outcome.panicked`
constructor, distinct from a returned error (`Outcome.err`), so
"returns an error" and "aborts the process" are distinguishable.
Machine bytes (`u8`) are modelled as `Nat`; byte vectors as `List Nat`.
All four backend cargo features (filesystem, azblob, awsdynamodb,
redis) are taken as enabled, as in the default build.
-/

/-- Outcome of executing a Rust function that returns
`Result<A, E>` but may also `panic`. `ok`/`err` are the two
`Result` constructors; `panicked` models a process abort. -/
inductive Outcome (ε α : Type) where
  | ok : α → Outcome ε α
  | err : ε → Outcome ε α
  | panicked : String → Outcome ε α
deriving DecidableEq, Repr

/-- Whether an outcome is a panic (process abort). -/
def Outcome.isPanicked {ε α : Type} : Outcome ε α → Bool
  | Outcome.panicked _ => true
  | _ => false

/-- First-match association-list lookup (used to model map reads). -/
def lookupKV {κ α : Type} [DecidableEq κ] : List (κ × α) → κ → Option α
  | [], _ => none
  | (k, v) :: rest, k2 => if k = k2 then some v else lookupKV rest k2

/-- Remove every binding of a key from an association list. -/
def removeKV {κ α : Type} [DecidableEq κ] : List (κ × α) → κ → List (κ × α)
  | [], _ => []
  | (k, v) :: rest, k2 => if k = k2 then removeKV rest k2 else (k, v) :: removeKV rest k2

/-- Modelled from the spec: the keyvalue provider variants of the
`Resource` identity enum from the `slight_file` crate (not under the
provided sources). The variants are the ones named by the `From<Resource>`
match in lib.rs: the four current providers and their version-tagged
aliases. -/
inductive KeyvalueResource where
  | filesystem
  | azblob
  | awsDynamoDb
  | redis
  | v1Filesystem
  | v1Azblob
  | v1AwsDynamoDb
  | v1Redis
deriving DecidableEq, Repr

/-- Modelled from the spec: the `Resource` identity type from
`slight_file` — a tagged value naming a capability kind and a provider
variant. Keyvalue is the kind specified here; any other capability kind
is represented by its provider-identity string. -/
inductive Resource where
  | keyvalue : KeyvalueResource → Resource
  | otherCapability : String → Resource
deriving DecidableEq, Repr

/-- Modelled from the spec: the provider-identity string of a resource
(the `Display`/`to_string` of `Resource` in `slight_file`). The exact
spellings are not fixed by the spec; what matters is that each variant
has a provider-identity string usable as a configuration-store key. -/
def Resource.to_string : Resource → String
  | Resource.keyvalue KeyvalueResource.filesystem => "kv.filesystem"
  | Resource.keyvalue KeyvalueResource.azblob => "kv.azblob"
  | Resource.keyvalue KeyvalueResource.awsDynamoDb => "kv.awsdynamodb"
  | Resource.keyvalue KeyvalueResource.redis => "kv.redis"
  | Resource.keyvalue KeyvalueResource.v1Filesystem => "kv.filesystem.v1"
  | Resource.keyvalue KeyvalueResource.v1Azblob => "kv.azblob.v1"
  | Resource.keyvalue KeyvalueResource.v1AwsDynamoDb => "kv.awsdynamodb.v1"
  | Resource.keyvalue KeyvalueResource.v1Redis => "kv.redis.v1"
  | Resource.otherCapability s => s

/-- Modelled from the spec: `BasicState` from `slight_common` (not under
the provided sources) — the per-name capability configuration: the
configured provider identity (`state.implementor`, read by
`keyvalue_open`) plus the backend-specific configuration payload. -/
structure BasicState where
  implementor : Resource
  configPayload : String
deriving DecidableEq, Repr

/-- Modelled from the spec: `CapabilityStore` from `slight_file` (not
under the provided sources) — an immutable-after-init mapping from
(logical name, capability-kind string) to a configuration, read by
`capability_store.get(name, "keyvalue")` in lib.rs. -/
structure CapabilityStore (α : Type) where
  entries : List ((String × String) × α)
deriving DecidableEq, Repr

/-- Modelled from the spec: `CapabilityStore::get` — pure read of the
configuration stored under (name, kind). -/
def CapabilityStore.get {α : Type} (self : CapabilityStore α) (name kind : String) :
    Option α :=
  lookupKV self.entries (name, kind)

/-- The enabled keyvalue backend kinds (`enum KeyvalueImplementors` in
lib.rs), with all four cargo features enabled. -/
inductive KeyvalueImplementors where
  | filesystem
  | azBlob
  | awsDynamoDb
  | redis
deriving DecidableEq, Repr

/-- `impl From<Resource> for KeyvalueImplementors` from lib.rs: each
current variant and its version-tagged alias map to the same implementor
kind; any other resource hits the catch-all arm, which panics (the
source message quoting around the name is elided). -/
def KeyvalueImplementors.fromResource : Resource → Outcome Empty KeyvalueImplementors
  | Resource.keyvalue KeyvalueResource.filesystem =>
      Outcome.ok KeyvalueImplementors.filesystem
  | Resource.keyvalue KeyvalueResource.v1Filesystem =>
      Outcome.ok KeyvalueImplementors.filesystem
  | Resource.keyvalue KeyvalueResource.azblob =>
      Outcome.ok KeyvalueImplementors.azBlob
  | Resource.keyvalue KeyvalueResource.v1Azblob =>
      Outcome.ok KeyvalueImplementors.azBlob
  | Resource.keyvalue KeyvalueResource.awsDynamoDb =>
      Outcome.ok KeyvalueImplementors.awsDynamoDb
  | Resource.keyvalue KeyvalueResource.v1AwsDynamoDb =>
      Outcome.ok KeyvalueImplementors.awsDynamoDb
  | Resource.keyvalue KeyvalueResource.redis =>
      Outcome.ok KeyvalueImplementors.redis
  | Resource.keyvalue KeyvalueResource.v1Redis =>
      Outcome.ok KeyvalueImplementors.redis
  | p =>
      Outcome.panicked
        ("failed to match provided name (i.e., " ++ p.to_string ++
          ") to any known host implementations")

/-- Modelled from the spec: the error taxonomy returned by this layer
(the wit-generated `KeyvalueError` is not under the provided sources). -/
inductive KeyvalueError where
  | notFound
  | unsupportedResource
  | backendConstructionError : String → KeyvalueError
  | backendError : String → KeyvalueError
deriving DecidableEq, Repr

/-- A backend implementor instance is constructed from a capability
configuration and a logical name; that pair determines its backing
store. -/
abbrev BackendKey := BasicState × String

/-- Modelled from the spec: the world of live backend implementor
instances and their backing stores (the `implementors` module of the
keyvalue crate is not under the provided sources). `nextId` numbers
each `Arc::new` allocation; `instanceKey` records which backing store
each constructed instance owns; `backingData` holds the stored bytes
of each backing store, keyed by (backing store, key). -/
structure WorldState where
  nextId : Nat
  instanceKey : List (Nat × BackendKey)
  backingData : List ((BackendKey × String) × List Nat)
deriving DecidableEq, Repr

/-- Modelled from the spec: `get(key) -> bytes or NotFound` on the
implementor instance `id`. -/
def WorldState.implGet (w : WorldState) (id : Nat) (key : String) :
    Outcome KeyvalueError (List Nat) :=
  match lookupKV w.instanceKey id with
  | none => Outcome.err (KeyvalueError.backendError "unknown implementor instance")
  | some bk =>
    match lookupKV w.backingData (bk, key) with
    | some v => Outcome.ok v
    | none => Outcome.err KeyvalueError.notFound

/-- Modelled from the spec: `set(key, bytes)` on the implementor
instance `id` — overwrites the binding in the instance's backing
store. -/
def WorldState.implSet (w : WorldState) (id : Nat) (key : String) (value : List Nat) :
    WorldState × Outcome KeyvalueError Unit :=
  match lookupKV w.instanceKey id with
  | none => (w, Outcome.err (KeyvalueError.backendError "unknown implementor instance"))
  | some bk =>
    ({ w with backingData := ((bk, key), value) :: removeKV w.backingData (bk, key) },
      Outcome.ok ())

/-- Modelled from the spec: `list_keys()` on the implementor instance
`id` — the keys of its backing store, as a set (no order guaranteed). -/
def WorldState.implKeys (w : WorldState) (id : Nat) :
    Outcome KeyvalueError (List String) :=
  match lookupKV w.instanceKey id with
  | none => Outcome.err (KeyvalueError.backendError "unknown implementor instance")
  | some bk =>
    Outcome.ok ((w.backingData.filter (fun e => e.1.1 = bk)).map (fun e => e.1.2))

/-- Modelled from the spec: `delete(key)` on the implementor instance
`id` — removes the binding if present; deleting a non-existent key is a
no-op success. -/
def WorldState.implDelete (w : WorldState) (id : Nat) (key : String) :
    WorldState × Outcome KeyvalueError Unit :=
  match lookupKV w.instanceKey id with
  | none => (w, Outcome.err (KeyvalueError.backendError "unknown implementor instance"))
  | some bk =>
    ({ w with backingData := removeKV w.backingData (bk, key) }, Outcome.ok ())

/-- `struct Keyvalue` from lib.rs (wasmtime skeleton): the configured
implementor identity and the capability configuration store. -/
structure Keyvalue where
  implementor : Resource
  capability_store : CapabilityStore BasicState
deriving DecidableEq, Repr

/-- `Keyvalue::new` from lib.rs. -/
def Keyvalue.new (implementor : Resource) (keyvalue_store : CapabilityStore BasicState) :
    Keyvalue :=
  { implementor := implementor, capability_store := keyvalue_store }

/-- `struct KeyvalueInner` from lib.rs: holds the
`Arc<dyn KeyvalueImplementor>`; the `Arc` is modelled by the allocation
number of the instance it references. -/
structure KeyvalueInner where
  keyvalue_implementor : Nat
deriving DecidableEq, Repr

/-- `KeyvalueInner::new` from lib.rs: every branch of the match performs
`Arc::new(<Implementor>::new(slight_state, name).await)`, i.e. it
constructs a fresh implementor instance from the configuration and the
name (the construction itself is modelled from the spec, since the
`implementors` module is not under the provided sources). -/
def KeyvalueInner.new (keyvalue_implementor : KeyvalueImplementors)
    (slight_state : BasicState) (name : String) (w : WorldState) :
    KeyvalueInner × WorldState :=
  ({ keyvalue_implementor := w.nextId },
    { nextId := w.nextId + 1,
      instanceKey := (w.nextId, (slight_state, name)) :: w.instanceKey,
      backingData := w.backingData })

/-- The capability-store lookup performed by `keyvalue_open`
(lib.rs lines 173-183): try the exact logical name, else fall back to
the configured provider-identity string as a name. -/
def Keyvalue.open_lookup (self : Keyvalue) (name : String) : Option BasicState :=
  match self.capability_store.get name "keyvalue" with
  | some r => some r
  | none => self.capability_store.get (self.implementor.to_string) "keyvalue"

/-- The tail of `keyvalue_open` once a configuration was found:
`state.implementor.into()` (which may panic) followed by
`KeyvalueInner::new`. -/
def Keyvalue.open_with_state (state : BasicState) (name : String) (w : WorldState) :
    Outcome KeyvalueError (KeyvalueInner × WorldState) :=
  match KeyvalueImplementors.fromResource state.implementor with
  | Outcome.panicked m => Outcome.panicked m
  | Outcome.err e => e.elim
  | Outcome.ok kind =>
    let p := KeyvalueInner.new kind state name w
    Outcome.ok (p.1, p.2)

/-- `keyvalue_open` from the wasmtime `keyvalue::Keyvalue` trait impl in
lib.rs: look up the configuration (exact name first, provider-identity
string second), panic if neither is present (the source message quoting
around the names is elided), then resolve the implementor kind and
construct the inner object. -/
def Keyvalue.keyvalue_open (self : Keyvalue) (w : WorldState) (name : String) :
    Outcome KeyvalueError (KeyvalueInner × WorldState) :=
  match self.open_lookup name with
  | some state => Keyvalue.open_with_state state name w
  | none =>
    Outcome.panicked
      ("could not find capability under name " ++ name ++ " for implementor " ++
        self.implementor.to_string)

/-- `keyvalue_get` from the wasmtime trait impl in lib.rs: forwards to
the implementor instance held by the handle; `self` is not read. -/
def Keyvalue.keyvalue_get (self : Keyvalue) (w : WorldState) (self_ : KeyvalueInner)
    (key : String) : Keyvalue × WorldState × Outcome KeyvalueError (List Nat) :=
  (self, w, w.implGet self_.keyvalue_implementor key)

/-- `keyvalue_set` from the wasmtime trait impl in lib.rs: forwards to
the implementor instance held by the handle; `self` is not read. -/
def Keyvalue.keyvalue_set (self : Keyvalue) (w : WorldState) (self_ : KeyvalueInner)
    (key : String) (value : List Nat) :
    Keyvalue × WorldState × Outcome KeyvalueError Unit :=
  let p := w.implSet self_.keyvalue_implementor key value
  (self, p.1, p.2)

/-- `keyvalue_keys` from the wasmtime trait impl in lib.rs: forwards to
the implementor instance held by the handle; `self` is not read. -/
def Keyvalue.keyvalue_keys (self : Keyvalue) (w : WorldState) (self_ : KeyvalueInner) :
    Keyvalue × WorldState × Outcome KeyvalueError (List String) :=
  (self, w, w.implKeys self_.keyvalue_implementor)

/-- `keyvalue_delete` from the wasmtime trait impl in lib.rs: forwards
to the implementor instance held by the handle; `self` is not read. -/
def Keyvalue.keyvalue_delete (self : Keyvalue) (w : WorldState) (self_ : KeyvalueInner)
    (key : String) : Keyvalue × WorldState × Outcome KeyvalueError Unit :=
  let p := w.implDelete self_.keyvalue_implementor key
  (self, p.1, p.2)

namespace WasmedgeStub

/-- The free function `keyvalue_open` from the wasmedge stub in lib.rs:
prints and returns `Ok(1)` for every name (the print side effect is not
modelled). -/
def keyvalue_open (name : String) : Outcome KeyvalueError Nat :=
  Outcome.ok 1

/-- The free function `keyvalue_set` from the wasmedge stub in lib.rs:
prints and returns `Ok(())`, storing nothing. -/
def keyvalue_set (handle : Nat) (key : String) (value : List Nat) :
    Outcome KeyvalueError Unit :=
  Outcome.ok ()

/-- The free function `keyvalue_get` from the wasmedge stub in lib.rs:
prints and returns `Ok(vec![1])` for every handle and key. -/
def keyvalue_get (handle : Nat) (key : String) : Outcome KeyvalueError (List Nat) :=
  Outcome.ok [1]

/-- The free function `keyvalue_keys` from the wasmedge stub in lib.rs:
prints and returns `Ok(vec!["key1"])`. -/
def keyvalue_keys (handle : Nat) : Outcome KeyvalueError (List String) :=
  Outcome.ok ["key1"]

/-- The free function `keyvalue_delete` from the wasmedge stub in
lib.rs: prints and returns `Ok(())`, removing nothing. -/
def keyvalue_delete (handle : Nat) (key : String) : Outcome KeyvalueError Unit :=
  Outcome.ok ()

end WasmedgeStub

/-- `struct Builder<T: WasmedgeBuildable>` from
crates/common/src/wasmedge_runtime/builder.rs (the `WasmedgeBuildable`
bound plays no role in the three inherent methods and is dropped). -/
structure Builder (T : Type) where
  inner : T

/-- `Builder::new` from builder.rs. -/
def Builder.new {T : Type} (inner : T) : Builder T :=
  { inner := inner }

/-- `Builder::owned_inner` from builder.rs. -/
def Builder.owned_inner {T : Type} (self : Builder T) : T :=
  self.inner

/-- A filesystem configuration used as a concrete test fixture. -/
def fsState : BasicState :=
  { implementor := Resource.keyvalue KeyvalueResource.filesystem,
    configPayload := "cfg-a" }

/-- A second, distinct filesystem configuration fixture. -/
def fsStateB : BasicState :=
  { implementor := Resource.keyvalue KeyvalueResource.filesystem,
    configPayload := "cfg-b" }

/-- A concrete capability store holding an entry under the logical name
"mystore" and a different entry under the provider-identity string
"kv.filesystem". -/
def demoStore : CapabilityStore BasicState :=
  { entries :=
      [(("mystore", "keyvalue"), fsState),
       (("kv.filesystem", "keyvalue"), fsStateB)] }

/-- A concrete front door over `demoStore`. -/
def demoKeyvalue : Keyvalue :=
  Keyvalue.new (Resource.keyvalue KeyvalueResource.filesystem) demoStore

/-- A concrete front door whose capability store is empty. -/
def emptyKeyvalue : Keyvalue :=
  Keyvalue.new (Resource.keyvalue KeyvalueResource.filesystem) { entries := [] }

/-- The initial world: no implementor instance constructed yet. -/
def w0 : WorldState := { nextId := 0, instanceKey := [], backingData := [] }

/-- C1: the claim says `open` of a name with no configuration entry
(neither under the name nor under the provider-identity string) returns
a `NotFound` error and does not abort. On the code, `keyvalue_open`
hits the `panic` arm instead of returning an error: with an empty
capability store, opening "unknown-name" aborts. -/
theorem C1_open_unknown_name_panics :
    Keyvalue.keyvalue_open emptyKeyvalue w0 "unknown-name" =
      Outcome.panicked
        "could not find capability under name unknown-name for implementor kv.filesystem" :=
  rfl

/-- C2: the claim says resolving a resource identity outside the
enabled keyvalue backend set yields an `UnsupportedResource` error and
never aborts. On the code, the catch-all arm of
`From<Resource> for KeyvalueImplementors` panics instead. -/
theorem C2_resolver_unknown_resource_panics :
    KeyvalueImplementors.fromResource (Resource.otherCapability "mq.azsbus") =
      Outcome.panicked
        "failed to match provided name (i.e., mq.azsbus) to any known host implementations" :=
  rfl

/-- C3: `keyvalue_open` looks up the exact logical name first; its
result, when present, is used regardless of what the fallback lookup
would return (first conjunct: no hypothesis on the fallback entry).
Only when the name is absent is the provider-identity string looked up
(second conjunct). No third lookup: the result of `open` depends on the
capability store only through those two lookups (third conjunct). -/
theorem C3_open_lookup_first_name_then_implementor
    (self self2 : Keyvalue) (w : WorldState) (name : String) (st : BasicState) :
    (self.capability_store.get name "keyvalue" = some st →
      Keyvalue.keyvalue_open self w name = Keyvalue.open_with_state st name w) ∧
    (self.capability_store.get name "keyvalue" = none →
      self.capability_store.get (self.implementor.to_string) "keyvalue" = some st →
      Keyvalue.keyvalue_open self w name = Keyvalue.open_with_state st name w) ∧
    (self2.implementor = self.implementor →
      self2.capability_store.get name "keyvalue" =
        self.capability_store.get name "keyvalue" →
      self2.capability_store.get (self.implementor.to_string) "keyvalue" =
        self.capability_store.get (self.implementor.to_string) "keyvalue" →
      Keyvalue.keyvalue_open self2 w name = Keyvalue.keyvalue_open self w name) := by
  refine ⟨?_, ?_, ?_⟩
  · intro h
    simp [Keyvalue.keyvalue_open, Keyvalue.open_lookup, h]
  · intro h1 h2
    simp [Keyvalue.keyvalue_open, Keyvalue.open_lookup, h1, h2]
  · intro hi h1 h2
    simp only [Keyvalue.keyvalue_open, Keyvalue.open_lookup, hi, h1, h2]

/-- C3 witness: in `demoStore` both "mystore" and the provider-identity
string "kv.filesystem" have entries, mapping to different
configurations; opening "mystore" uses the entry found under the exact
name, `fsState`. -/
theorem C3_witness :
    Keyvalue.keyvalue_open demoKeyvalue w0 "mystore" =
      Keyvalue.open_with_state fsState "mystore" w0 :=
  (C3_open_lookup_first_name_then_implementor demoKeyvalue demoKeyvalue w0 "mystore"
    fsState).1 (by decide)

/-- C4: each version-tagged alias resolves to exactly the same
implementor kind as the corresponding unversioned identity, for all
four enabled backends. -/
theorem C4_versioned_aliases_resolve_same :
    KeyvalueImplementors.fromResource (Resource.keyvalue KeyvalueResource.v1Filesystem) =
      KeyvalueImplementors.fromResource (Resource.keyvalue KeyvalueResource.filesystem) ∧
    KeyvalueImplementors.fromResource (Resource.keyvalue KeyvalueResource.v1Azblob) =
      KeyvalueImplementors.fromResource (Resource.keyvalue KeyvalueResource.azblob) ∧
    KeyvalueImplementors.fromResource (Resource.keyvalue KeyvalueResource.v1AwsDynamoDb) =
      KeyvalueImplementors.fromResource (Resource.keyvalue KeyvalueResource.awsDynamoDb) ∧
    KeyvalueImplementors.fromResource (Resource.keyvalue KeyvalueResource.v1Redis) =
      KeyvalueImplementors.fromResource (Resource.keyvalue KeyvalueResource.redis) :=
  ⟨rfl, rfl, rfl, rfl⟩

/-- C5: the claim says that after `set(h,k,v)` succeeds, `get(h,k)`
returns exactly `v`. The cited code is the wasmedge stub, whose `set`
stores nothing and whose `get` returns the constant `[1]`: with
`v = [2, 3]`, `set` succeeds but `get` returns `[1]`, not `v`. -/
theorem C5_stub_set_then_get_returns_constant :
    WasmedgeStub.keyvalue_open "mystore" = Outcome.ok 1 ∧
    WasmedgeStub.keyvalue_set 1 "a" [2, 3] = Outcome.ok () ∧
    WasmedgeStub.keyvalue_get 1 "a" = Outcome.ok [1] ∧
    WasmedgeStub.keyvalue_get 1 "a" ≠ Outcome.ok [2, 3] :=
  ⟨rfl, rfl, rfl, by decide⟩

/-- C6: the claim says that after `delete(h,k)` succeeds, `get(h,k)`
returns `NotFound`. The cited code is the wasmedge stub, whose `delete`
removes nothing and whose `get` returns `Ok([1])` — never `NotFound`. -/
theorem C6_stub_delete_then_get_not_notfound :
    WasmedgeStub.keyvalue_delete 1 "k" = Outcome.ok () ∧
    WasmedgeStub.keyvalue_get 1 "k" = Outcome.ok [1] ∧
    WasmedgeStub.keyvalue_get 1 "k" ≠ Outcome.err KeyvalueError.notFound :=
  ⟨rfl, rfl, by decide⟩

/-- C7: `delete` on a key that was never set returns success, not an
error: the stub `keyvalue_delete` returns `Ok(())` for every handle and
key. -/
theorem C7_stub_delete_never_set_key_succeeds (handle : Nat) (key : String) :
    WasmedgeStub.keyvalue_delete handle key = Outcome.ok () :=
  rfl

/-- C8 counterexample: the claim says two opens of the same configured
name yield handles sharing the same underlying implementor instance. On
the code, every `keyvalue_open` runs `KeyvalueInner::new`, whose every
branch performs a fresh `Arc::new(<Implementor>::new(..))` allocation
(numbered here by `nextId`): opening "mystore" twice yields handles
referencing distinct allocations 0 and 1. -/
theorem C8_two_opens_do_not_share_instance :
    Keyvalue.keyvalue_open demoKeyvalue w0 "mystore" =
      Outcome.ok (⟨0⟩, ⟨1, [(0, (fsState, "mystore"))], []⟩) ∧
    Keyvalue.keyvalue_open demoKeyvalue ⟨1, [(0, (fsState, "mystore"))], []⟩ "mystore" =
      Outcome.ok (⟨1⟩, ⟨2, [(1, (fsState, "mystore")), (0, (fsState, "mystore"))], []⟩) ∧
    (⟨0⟩ : KeyvalueInner) ≠ (⟨1⟩ : KeyvalueInner) :=
  ⟨rfl, rfl, by decide⟩

/-- C8 (amended): two opens of the same configured name construct fresh,
distinct implementor instances (no instance sharing), but both are
constructed from the same configuration and logical name and hence own
the same backing store, so `set` through the first handle followed by
`get` through the second returns the written value. -/
theorem C8_same_name_opens_share_backing_store
    (self : Keyvalue) (w : WorldState) (name : String) (st : BasicState)
    (kind : KeyvalueImplementors) (k : String) (v : List Nat)
    (hlook : self.open_lookup name = some st)
    (hres : KeyvalueImplementors.fromResource st.implementor = Outcome.ok kind) :
    Keyvalue.keyvalue_open self w name =
      Outcome.ok (⟨w.nextId⟩,
        ⟨w.nextId + 1, (w.nextId, (st, name)) :: w.instanceKey, w.backingData⟩) ∧
    Keyvalue.keyvalue_open self
        ⟨w.nextId + 1, (w.nextId, (st, name)) :: w.instanceKey, w.backingData⟩ name =
      Outcome.ok (⟨w.nextId + 1⟩,
        ⟨w.nextId + 1 + 1,
          (w.nextId + 1, (st, name)) :: (w.nextId, (st, name)) :: w.instanceKey,
          w.backingData⟩) ∧
    (⟨w.nextId⟩ : KeyvalueInner) ≠ (⟨w.nextId + 1⟩ : KeyvalueInner) ∧
    (Keyvalue.keyvalue_set self
        ⟨w.nextId + 1 + 1,
          (w.nextId + 1, (st, name)) :: (w.nextId, (st, name)) :: w.instanceKey,
          w.backingData⟩ ⟨w.nextId⟩ k v).2.2 = Outcome.ok () ∧
    (Keyvalue.keyvalue_get self
        (Keyvalue.keyvalue_set self
          ⟨w.nextId + 1 + 1,
            (w.nextId + 1, (st, name)) :: (w.nextId, (st, name)) :: w.instanceKey,
            w.backingData⟩ ⟨w.nextId⟩ k v).2.1
        ⟨w.nextId + 1⟩ k).2.2 = Outcome.ok v := by
  have hne : ¬(w.nextId + 1 = w.nextId) := Nat.succ_ne_self w.nextId
  refine ⟨?_, ?_, ?_, ?_, ?_⟩
  · simp [Keyvalue.keyvalue_open, hlook, Keyvalue.open_with_state, hres, KeyvalueInner.new]
  · simp [Keyvalue.keyvalue_open, hlook, Keyvalue.open_with_state, hres, KeyvalueInner.new]
  · simp only [ne_eq, KeyvalueInner.mk.injEq]
    omega
  · simp [Keyvalue.keyvalue_set, WorldState.implSet, lookupKV, hne]
  · simp [Keyvalue.keyvalue_set, Keyvalue.keyvalue_get, WorldState.implSet,
      WorldState.implGet, lookupKV, hne]

/-- C8 witness: in `demoStore`, opening "mystore" twice yields the
distinct handles 0 and 1 over the same backing store; setting "x" to
[9] through handle 0 and reading "x" through handle 1 returns [9]. -/
theorem C8_witness :
    Keyvalue.keyvalue_open demoKeyvalue w0 "mystore" =
      Outcome.ok (⟨0⟩, ⟨1, [(0, (fsState, "mystore"))], []⟩) ∧
    Keyvalue.keyvalue_open demoKeyvalue ⟨1, [(0, (fsState, "mystore"))], []⟩ "mystore" =
      Outcome.ok (⟨1⟩, ⟨2, [(1, (fsState, "mystore")), (0, (fsState, "mystore"))], []⟩) ∧
    (⟨0⟩ : KeyvalueInner) ≠ (⟨1⟩ : KeyvalueInner) ∧
    (Keyvalue.keyvalue_set demoKeyvalue
        ⟨2, [(1, (fsState, "mystore")), (0, (fsState, "mystore"))], []⟩ ⟨0⟩ "x" [9]).2.2 =
      Outcome.ok () ∧
    (Keyvalue.keyvalue_get demoKeyvalue
        (Keyvalue.keyvalue_set demoKeyvalue
          ⟨2, [(1, (fsState, "mystore")), (0, (fsState, "mystore"))], []⟩ ⟨0⟩ "x" [9]).2.1
        ⟨1⟩ "x").2.2 = Outcome.ok [9] :=
  C8_same_name_opens_share_backing_store demoKeyvalue w0 "mystore" fsState
    KeyvalueImplementors.filesystem "x" [9] (by decide) (by decide)

/-- C9: the post-open operations forward to the implementor instance
held by the handle only: the front-door state (`self`, holding the
configured implementor identity and the capability store) is returned
unchanged, the world and outcome do not depend on `self` at all (so no
capability-store lookup and no name resolution can occur), and `get`
and `list_keys` leave the world unchanged. -/
theorem C9_post_open_ops_frame
    (self self2 : Keyvalue) (w : WorldState) (h : KeyvalueInner) (key : String)
    (value : List Nat) :
    Keyvalue.keyvalue_get self w h key = (self, (Keyvalue.keyvalue_get self2 w h key).2) ∧
    Keyvalue.keyvalue_set self w h key value =
      (self, (Keyvalue.keyvalue_set self2 w h key value).2) ∧
    Keyvalue.keyvalue_keys self w h = (self, (Keyvalue.keyvalue_keys self2 w h).2) ∧
    Keyvalue.keyvalue_delete self w h key =
      (self, (Keyvalue.keyvalue_delete self2 w h key).2) ∧
    (Keyvalue.keyvalue_get self w h key).2.1 = w ∧
    (Keyvalue.keyvalue_keys self w h).2.1 = w :=
  ⟨rfl, rfl, rfl, rfl, rfl, rfl⟩

/-- C10: wrapping a value in the runtime `Builder` and unwrapping it is
the identity: `owned_inner` returns exactly the wrapped value, and
`inner` borrows exactly the wrapped value. -/
theorem C10_builder_wrap_unwrap_identity (T : Type) (t : T) :
    (Builder.new t).owned_inner = t ∧ (Builder.new t).inner = t :=
  ⟨rfl, rfl⟩
